import Mathlib

/-!
Verification of the asynchronous job-processing engine of the `activcv`
repository against its natural-language specification.

The Python sources embedded here (shallowly) are:
  - `agent/app/models/job_processing.py` (enums, records, step templates)
  - `agent/app/services/job_processor.py` (JobProcessor)
  - `agent/app/api/v1/endpoints/job_processing.py` (API endpoints)

Timestamps are modelled as natural-number ticks; the current time is passed
explicitly where the Python code calls `datetime.utcnow()` / SQL `now()`.
Opaque JSON payloads (`input_data` / `output_data`) are modelled as strings.
Database functions invoked through `db.rpc(...)` (`get_next_job_from_queue`,
`start_job_processing`, `complete_job_processing`) live in SQL migrations that
are not part of the Python sources; their models are marked
`Modelled from the spec:` in their doc comments.
-/

/-- `JobStatus` enum from `app/models/job_processing.py`. -/
inductive JobStatus
  | pending
  | processing
  | completed
  | failed
  | cancelled
deriving DecidableEq, Repr

/-- `StepStatus` enum from `app/models/job_processing.py`. -/
inductive StepStatus
  | pending
  | processing
  | completed
  | failed
  | skipped
deriving DecidableEq, Repr

/-- `JobType` enum from `app/models/job_processing.py`. -/
inductive JobType
  | cv_generation
  | cover_letter_generation
  | job_analysis
  | bulk_generation
deriving DecidableEq, Repr

/-- The `JobQueue` record from `app/models/job_processing.py`.
Identifiers and timestamps are naturals; payloads are serialized strings. -/
structure JobQueue where
  id : Nat
  user_id : Nat
  job_type : JobType
  priority : Nat
  input_data : String
  max_retries : Nat
  scheduled_at : Nat
  status : JobStatus
  progress_percentage : Nat
  current_step : Option String
  total_steps : Nat
  output_data : String
  error_message : Option String
  retry_count : Nat
  started_at : Option Nat
  completed_at : Option Nat
  created_at : Nat
  updated_at : Nat
deriving DecidableEq, Repr

/-- The `JobProcessingStep` record from `app/models/job_processing.py`. -/
structure JobProcessingStep where
  id : Nat
  job_queue_id : Nat
  step_name : String
  step_order : Nat
  status : StepStatus
  progress_percentage : Nat
  error_message : Option String
  started_at : Option Nat
  completed_at : Option Nat
  updated_at : Nat
deriving DecidableEq, Repr

/-- `JobProcessor._fail_job`: unconditionally sets status FAILED, records the
error message, and increments `retry_count` by one (read-then-write on the
stored value). -/
def failJob (now : Nat) (error_message : String) (j : JobQueue) : JobQueue :=
  { j with
    status := JobStatus.failed
    error_message := some error_message
    retry_count := j.retry_count + 1
    updated_at := now }

/-- Modelled from the spec: the SQL function `start_job_processing` (invoked
via `db.rpc` in `JobProcessor.start_job_processing`) is not among the Python
sources.  Per spec §4.1/§4.2 the claim transition moves the job to PROCESSING
and stamps `started_at`. -/
def startJobProcessing (now : Nat) (j : JobQueue) : JobQueue :=
  { j with
    status := JobStatus.processing
    started_at := some now
    updated_at := now }

/-- Modelled from the spec: the SQL function `complete_job_processing`
(invoked via `db.rpc` in `JobProcessor._complete_job`) is not among the Python
sources.  Per spec §4.2 step 4, success sets `output_data`, stamps
`completed_at` and moves the status to COMPLETED. -/
def completeJob (now : Nat) (output_data : String) (j : JobQueue) : JobQueue :=
  { j with
    status := JobStatus.completed
    output_data := output_data
    completed_at := some now
    updated_at := now }

/-- `JobProcessor._update_job_progress`: writes `progress_percentage`,
`updated_at`, and (when a message is given) `current_step`. -/
def updateJobProgress (now : Nat) (progress : Nat) (message : Option String)
    (j : JobQueue) : JobQueue :=
  { j with
    progress_percentage := progress
    current_step := match message with
      | some m => some m
      | none => j.current_step
    updated_at := now }

/-- Outcome of running a job handler: the Python handlers return a dict with
`success`, `output_data` and `error` keys; an uncaught exception is caught by
`process_job` and treated through the same `_fail_job` path. -/
inductive HandlerOutcome
  | ok (output_data : String)
  | fail (error : String)
  | exn (error : String)
deriving DecidableEq, Repr

/-- A handler registry in the shape of `JobProcessor.job_handlers`: a lookup
from `JobType` to a handler.  A handler is abstracted to the outcome it
produces on a given job. -/
def HandlerRegistry : Type := JobType → Option (JobQueue → HandlerOutcome)

/-- `JobProcessor.process_job` (lines 130–163): start processing, look up the
handler for the job's type, fail the job if there is none, otherwise run the
handler, completing on success and calling `_fail_job` on a failure result or
an exception.  Returns the Python function's boolean together with the final
job record. -/
def processJob (registry : HandlerRegistry) (now : Nat) (j : JobQueue) :
    Bool × JobQueue :=
  let j1 := startJobProcessing now j
  match registry j.job_type with
  | none =>
      (false, failJob now "No handler for job type" j1)
  | some h =>
      let j2 := updateJobProgress now 0 (some "Starting job processing") j1
      match h j2 with
      | HandlerOutcome.ok out => (true, completeJob now out j2)
      | HandlerOutcome.fail e => (false, failJob now e j2)
      | HandlerOutcome.exn e => (false, failJob now e j2)

/-- The registry built in `JobProcessor.__init__`: every member of the
`JobType` enum has a handler.  Handler behaviour is a parameter. -/
def defaultRegistry
    (cv clg ja bg : JobQueue → HandlerOutcome) : HandlerRegistry :=
  fun t =>
    match t with
    | JobType.cv_generation => some cv
    | JobType.cover_letter_generation => some clg
    | JobType.job_analysis => some ja
    | JobType.bulk_generation => some bg

/-- A concrete pending job used by the closed witnesses and counterexamples. -/
def sampleJob : JobQueue :=
  { id := 1
    user_id := 7
    job_type := JobType.cv_generation
    priority := 5
    input_data := "{}"
    max_retries := 3
    scheduled_at := 0
    status := JobStatus.pending
    progress_percentage := 0
    current_step := none
    total_steps := 7
    output_data := "{}"
    error_message := none
    retry_count := 0
    started_at := none
    completed_at := none
    created_at := 0
    updated_at := 0 }

/-- `JobQueueUpdate` from `app/models/job_processing.py`: every field optional;
a `none` is the Python `None` and is dropped by the endpoint. -/
structure JobQueueUpdate where
  status : Option JobStatus
  progress_percentage : Option Nat
  current_step : Option String
  total_steps : Option Nat
  output_data : Option String
  error_message : Option String
deriving DecidableEq, Repr

/-- Whether `update_job`'s `update_data` dict is non-empty, i.e. at least one
field of the request is not `None`. -/
def JobQueueUpdate.hasField (u : JobQueueUpdate) : Bool :=
  u.status.isSome || u.progress_percentage.isSome || u.current_step.isSome ||
  u.total_steps.isSome || u.output_data.isSome || u.error_message.isSome

/-- `update_job` endpoint (`PUT /jobs/{job_id}`, lines 126–163): after the
ownership check, every non-`None` field of the request is written to the
record (together with `updated_at`); with an all-`None` request the record is
returned unchanged. -/
def updateJob (now : Nat) (u : JobQueueUpdate) (j : JobQueue) : JobQueue :=
  if u.hasField then
    { j with
      status := u.status.getD j.status
      progress_percentage := u.progress_percentage.getD j.progress_percentage
      current_step := match u.current_step with
        | some c => some c
        | none => j.current_step
      total_steps := u.total_steps.getD j.total_steps
      output_data := u.output_data.getD j.output_data
      error_message := match u.error_message with
        | some e => some e
        | none => j.error_message
      updated_at := now }
  else j

/-- API-level rejection, carrying the HTTP status code and detail message the
endpoint raises through `HTTPException`. -/
structure ApiError where
  code : Nat
  detail : String
deriving DecidableEq, Repr

/-- `JobRetryRequest` from `app/models/job_processing.py`. -/
structure JobRetryRequest where
  reset_retry_count : Bool
  new_priority : Option Nat
  scheduled_at : Option Nat
deriving DecidableEq, Repr

/-- `JobCancellationRequest` from `app/models/job_processing.py`. -/
structure JobCancellationRequest where
  reason : Option String
deriving DecidableEq, Repr

/-- `retry_job` endpoint (`POST /jobs/{job_id}/retry`, lines 202–281) acting
on an owned job record: only FAILED or CANCELLED jobs pass the guard; on
success the record is reset to PENDING with cleared error, progress and
timestamps, with the optional retry-count / priority / schedule overrides. -/
def retryJob (now : Nat) (req : JobRetryRequest) (j : JobQueue) :
    Except ApiError JobQueue :=
  if j.status = JobStatus.failed ∨ j.status = JobStatus.cancelled then
    Except.ok
      { j with
        status := JobStatus.pending
        error_message := none
        progress_percentage := 0
        current_step := none
        started_at := none
        completed_at := none
        updated_at := now
        retry_count := if req.reset_retry_count then 0 else j.retry_count
        priority := req.new_priority.getD j.priority
        scheduled_at := req.scheduled_at.getD j.scheduled_at }
  else
    Except.error { code := 400, detail := "Only failed or cancelled jobs can be retried" }

/-- Python's `reason or fallback` on an optional string: both `None` and the
empty string are falsy and yield the fallback. -/
def reasonOrFallback (reason : Option String) (fallback : String) : String :=
  match reason with
  | none => fallback
  | some r => if r = "" then fallback else r

/-- `cancel_job` endpoint (`POST /jobs/{job_id}/cancel`, lines 284–334) acting
on an owned job record: only PENDING or PROCESSING jobs pass the guard; on
success the record becomes CANCELLED with `completed_at` stamped and
`error_message` set to `cancellation_request.reason or "Job cancelled by
user"` — a truthiness check, so a missing reason and an empty-string reason
both give the default text. -/
def cancelJob (now : Nat) (req : JobCancellationRequest) (j : JobQueue) :
    Except ApiError JobQueue :=
  if j.status = JobStatus.pending ∨ j.status = JobStatus.processing then
    Except.ok
      { j with
        status := JobStatus.cancelled
        error_message :=
          some (reasonOrFallback req.reason "Job cancelled by user")
        completed_at := some now
        updated_at := now }
  else
    Except.error { code := 400, detail := "Only pending or processing jobs can be cancelled" }

/-- `delete_job` endpoint (`DELETE /jobs/{job_id}`, lines 166–199) over a
store of job rows: 404 when no row matches id and owner; a 400 conflict-class
rejection when the matched row is PROCESSING (store untouched); otherwise the
row with that id is deleted.  Returns the response together with the store
after the call. -/
def deleteJob (store : List JobQueue) (job_id : Nat) (user : Nat) :
    Except ApiError Unit × List JobQueue :=
  match store.find? (fun x => x.id == job_id && x.user_id == user) with
  | none =>
      (Except.error { code := 404, detail := "Job not found" }, store)
  | some j =>
      if j.status = JobStatus.processing then
        (Except.error { code := 400, detail := "Cannot delete job that is currently processing" }, store)
      else
        (Except.ok (), store.filter (fun x => !(x.id == job_id)))

/-- `JobDashboardStats` from `app/models/job_processing.py`, restricted to the
fields `get_dashboard_stats` fills in (the timing averages stay at their
defaults in that code path). -/
structure JobDashboardStats where
  total_jobs : Nat
  pending_jobs : Nat
  processing_jobs : Nat
  completed_jobs : Nat
  failed_jobs : Nat
  success_rate : ℚ
  jobs_by_type : JobType → Nat

/-- `JobProcessor.get_dashboard_stats` (lines 477–515) over the list of the
user's job rows (the `job_queue` count and the `job_queue_dashboard` view both
range over that user's jobs): bucket counts per status (CANCELLED rows are
counted in no bucket), counts per type, and
`success_rate = completed_jobs / total_jobs` when there are any jobs. -/
def getDashboardStats (jobs : List JobQueue) : JobDashboardStats :=
  let total := jobs.length
  let completed := jobs.countP (fun j => j.status == JobStatus.completed)
  { total_jobs := total
    pending_jobs := jobs.countP (fun j => j.status == JobStatus.pending)
    processing_jobs := jobs.countP (fun j => j.status == JobStatus.processing)
    completed_jobs := completed
    failed_jobs := jobs.countP (fun j => j.status == JobStatus.failed)
    success_rate := if total > 0 then (completed : ℚ) / (total : ℚ) else 0
    jobs_by_type := fun t => jobs.countP (fun j => j.job_type == t) }

/-- `CV_GENERATION_STEPS` from `app/models/job_processing.py`: the fixed
per-type template of (name, order) pairs. -/
def cvGenerationSteps : List (String × Nat) :=
  [("profile_analysis", 1), ("job_analysis", 2), ("content_generation", 3),
   ("template_application", 4), ("pdf_generation", 5), ("quality_check", 6),
   ("delivery", 7)]

/-- `JobProcessor._create_job_steps`: one PENDING step row per template
entry. -/
def createJobSteps (job_id : Nat) (template : List (String × Nat)) :
    List JobProcessingStep :=
  template.map (fun p =>
    { id := p.2
      job_queue_id := job_id
      step_name := p.1
      step_order := p.2
      status := StepStatus.pending
      progress_percentage := 0
      error_message := none
      started_at := none
      completed_at := none
      updated_at := 0 })

/-- `JobProcessor._update_step_progress` (lines 403–419): update every step row
of the job matching `step_name` with the new status and progress; `started_at`
is stamped on PROCESSING, `completed_at` on COMPLETED / FAILED / SKIPPED. -/
def updateStepProgress (now : Nat) (step_name : String) (st : StepStatus)
    (progress : Nat) (steps : List JobProcessingStep) :
    List JobProcessingStep :=
  steps.map (fun s =>
    if s.step_name == step_name then
      { s with
        status := st
        progress_percentage := progress
        updated_at := now
        started_at :=
          if st == StepStatus.processing then some now else s.started_at
        completed_at :=
          if st == StepStatus.completed || st == StepStatus.failed ||
             st == StepStatus.skipped then some now else s.completed_at }
    else s)

/-- Environment of the external calls made by `_process_cv_generation`: which
lookups succeed and what the collaborators return.  Each field corresponds to
one branch condition in the Python code (lines 165–270). -/
structure CvEnv where
  profileFound : Bool
  jobIdProvided : Bool
  crewOk : Bool
  pdfUrlOk : Bool
  pdfSizeOk : Bool
deriving DecidableEq, Repr, Fintype

/-- Result dict of a handler body, as returned to `process_job`. -/
inductive CvResult
  | ok
  | fail (error : String)
deriving DecidableEq, Repr

/-- `JobProcessor._process_cv_generation` (lines 165–270), transcribed branch
by branch: on each early `return {"success": False, ...}` the function leaves
the step rows exactly as already written — in particular the step in flight
stays PROCESSING. -/
def cvGeneration (env : CvEnv) (now : Nat) (j : JobQueue)
    (steps : List JobProcessingStep) :
    CvResult × JobQueue × List JobProcessingStep :=
  let steps := updateStepProgress now "profile_analysis" StepStatus.processing 0 steps
  let j := updateJobProgress now 10 (some "Analyzing user profile") j
  if !env.profileFound then (CvResult.fail "User profile not found", j, steps)
  else
  let steps := updateStepProgress now "profile_analysis" StepStatus.completed 100 steps
  let jsteps :=
    if env.jobIdProvided then
      let steps := updateStepProgress now "job_analysis" StepStatus.processing 0 steps
      let j := updateJobProgress now 25 (some "Analyzing job requirements") j
      let steps := updateStepProgress now "job_analysis" StepStatus.completed 100 steps
      (j, steps)
    else
      (j, updateStepProgress now "job_analysis" StepStatus.skipped 100 steps)
  let j := jsteps.1
  let steps := jsteps.2
  let steps := updateStepProgress now "content_generation" StepStatus.processing 0 steps
  let j := updateJobProgress now 40 (some "Generating CV content") j
  if !env.crewOk then (CvResult.fail "Content generation failed", j, steps)
  else
  let steps := updateStepProgress now "content_generation" StepStatus.completed 100 steps
  let steps := updateStepProgress now "template_application" StepStatus.processing 0 steps
  let j := updateJobProgress now 60 (some "Applying template styling") j
  let steps := updateStepProgress now "template_application" StepStatus.completed 100 steps
  let steps := updateStepProgress now "pdf_generation" StepStatus.processing 0 steps
  let j := updateJobProgress now 80 (some "Generating PDF document") j
  let steps := updateStepProgress now "pdf_generation" StepStatus.completed 100 steps
  let steps := updateStepProgress now "quality_check" StepStatus.processing 0 steps
  let j := updateJobProgress now 90 (some "Performing quality check") j
  if !(env.pdfUrlOk && env.pdfSizeOk) then
    (CvResult.fail "PDF generation validation failed", j, steps)
  else
  let steps := updateStepProgress now "quality_check" StepStatus.completed 100 steps
  let steps := updateStepProgress now "delivery" StepStatus.processing 0 steps
  let j := updateJobProgress now 95 (some "Preparing for delivery") j
  let steps := updateStepProgress now "delivery" StepStatus.completed 100 steps
  let j := updateJobProgress now 100 (some "CV generation completed") j
  (CvResult.ok, j, steps)

/-- Eligibility for the claim, per spec §4.1: status PENDING and
`scheduled_at` not in the future. -/
def eligibleAt (now : Nat) (j : JobQueue) : Bool :=
  j.status == JobStatus.pending && j.scheduled_at ≤ now

/-- Strict preference between two jobs for the claim order of spec §4.1 /
§5: higher `priority` first, then earlier `scheduled_at`, then earlier
`created_at`. -/
def preferred (a b : JobQueue) : Bool :=
  b.priority < a.priority ||
  (a.priority == b.priority &&
    (a.scheduled_at < b.scheduled_at ||
      (a.scheduled_at == b.scheduled_at && a.created_at < b.created_at)))

/-- Index and value of the best eligible job of the store, earliest row
winning ties. -/
def pickBest (now : Nat) : List JobQueue → Option (Nat × JobQueue)
  | [] => none
  | j :: rest =>
      let r := pickBest now rest
      if eligibleAt now j then
        match r with
        | none => some (0, j)
        | some (i, b) =>
            if preferred b j then some (i + 1, b) else some (0, j)
      else
        match r with
        | none => none
        | some (i, b) => some (i + 1, b)

/-- The record mutation done by the atomic claim: status PROCESSING and
`started_at` stamped. -/
def markProcessing (now : Nat) (j : JobQueue) : JobQueue :=
  { j with
    status := JobStatus.processing
    started_at := some now
    updated_at := now }

/-- Modelled from the spec: the SQL function `get_next_job_from_queue`
(invoked via `db.rpc` in `JobProcessor.get_next_job`) is not among the Python
sources.  Per spec §4.1, `claim_next` atomically selects one eligible job
(PENDING, `scheduled_at` ≤ now) ordered by priority descending then
scheduled/created time ascending, transitions it to PROCESSING stamping
`started_at`, and returns it, or returns none when no job is eligible.
Returns the claimed job (if any) with the store after the call. -/
def claimNext (now : Nat) (s : List JobQueue) :
    Option JobQueue × List JobQueue :=
  match pickBest now s with
  | none => (none, s)
  | some (i, j) =>
      let jp := markProcessing now j
      (some jp, s.set i jp)

/-- A serialization of `n` callers of the atomic claim: since the claim is a
single atomic store operation, any concurrent execution of `n` callers is some
sequence of `n` `claimNext` calls; the result list holds what each caller
received. -/
def runClaims : Nat → Nat → List JobQueue → List (Option JobQueue) × List JobQueue
  | 0, _, s => ([], s)
  | n + 1, now, s =>
      let r := claimNext now s
      let rest := runClaims n now r.2
      (r.1 :: rest.1, rest.2)

/-- `Except.ok`-ness of an endpoint response. -/
def respOk : Except ApiError JobQueue → Bool
  | Except.ok _ => true
  | Except.error _ => false

/-- A handler that always reports failure, used to exercise the
`_fail_job` path of `process_job`. -/
def failingHandler : JobQueue → HandlerOutcome :=
  fun _ => HandlerOutcome.fail "boom"

/-- The full registry of `JobProcessor.__init__` with every handler failing. -/
def failingRegistry : HandlerRegistry :=
  defaultRegistry failingHandler failingHandler failingHandler failingHandler

/-- A registry with no handler registered for any type, exercising the
`if not handler` branch of `process_job`. -/
def emptyRegistry : HandlerRegistry := fun _ => none

/-- `sampleJob` with `max_retries = 0` (spec scenario B shape). -/
def sampleJobNoRetries : JobQueue := { sampleJob with id := 2, max_retries := 0 }

/-- A COMPLETED job record. -/
def completedJob : JobQueue := { sampleJob with id := 3, status := JobStatus.completed }

/-- An update request that sets only `status := PENDING`. -/
def updSetPending : JobQueueUpdate :=
  { status := some JobStatus.pending, progress_percentage := none,
    current_step := none, total_steps := none, output_data := none,
    error_message := none }

/-- An update request that sets only `status := PROCESSING`. -/
def updSetProcessing : JobQueueUpdate :=
  { status := some JobStatus.processing, progress_percentage := none,
    current_step := none, total_steps := none, output_data := none,
    error_message := none }

/-- The user's job rows of spec scenario E: two COMPLETED, one FAILED, one
PENDING. -/
def dashJobs : List JobQueue :=
  [{ sampleJob with id := 31, status := JobStatus.completed },
   { sampleJob with id := 32, status := JobStatus.completed },
   { sampleJob with id := 33, status := JobStatus.failed },
   { sampleJob with id := 34, status := JobStatus.pending }]

/-- The step rows created for `sampleJob` from the CV template. -/
def initialCvSteps : List JobProcessingStep :=
  createJobSteps sampleJob.id cvGenerationSteps

/-- Collaborator environment in which the content-generation step fails. -/
def cvFailEnv : CvEnv :=
  { profileFound := true, jobIdProvided := false, crewOk := false,
    pdfUrlOk := true, pdfSizeOk := true }

/-- A step-row pattern after a mid-pipeline failure: one step left PROCESSING,
every earlier step COMPLETED or SKIPPED, every later step still PENDING. -/
def failShape (steps : List JobProcessingStep) : Prop :=
  ∃ k : Fin steps.length,
    (steps.get k).status = StepStatus.processing ∧
    (∀ i : Fin steps.length, i.val < k.val →
      (steps.get i).status = StepStatus.completed ∨
      (steps.get i).status = StepStatus.skipped) ∧
    (∀ i : Fin steps.length, k.val < i.val →
      (steps.get i).status = StepStatus.pending)

instance failShapeDecidable (steps : List JobProcessingStep) :
    Decidable (failShape steps) := by
  unfold failShape
  infer_instance

/-- Two bulk-created jobs of spec scenario D: equal creation and schedule
times, priorities 3 and 9, both PENDING; the store lists the priority-3 row
first. -/
def bulkJob3 : JobQueue := { sampleJob with id := 41, priority := 3 }

/-- The priority-9 job of spec scenario D. -/
def bulkJob9 : JobQueue := { sampleJob with id := 42, priority := 9 }

/-- The store holding the two scenario-D jobs. -/
def bulkStore : List JobQueue := [bulkJob3, bulkJob9]

/-- A store with exactly one eligible PENDING job (the other row is
COMPLETED). -/
def oneEligStore : List JobQueue := [completedJob, sampleJob]

/-- The scenario-D store after the first claim: the priority-9 job has moved
to PROCESSING. -/
def bulkStoreAfter : List JobQueue := [bulkJob3, markProcessing 5 bulkJob9]

/-- A PROCESSING job row, target of the rejected delete. -/
def processingJob : JobQueue :=
  { sampleJob with id := 51, status := JobStatus.processing }

/-- A PENDING job row, target of the accepted delete. -/
def pendingJob52 : JobQueue :=
  { sampleJob with id := 52, status := JobStatus.pending }

/-- A store holding a PROCESSING job and a PENDING job of the same owner,
for the delete-endpoint scenarios. -/
def deleteStore : List JobQueue := [processingJob, pendingJob52]

/-- A FAILED job record, eligible for the retry endpoint. -/
def failedJob : JobQueue := { sampleJob with id := 4, status := JobStatus.failed }

/-- A retry request with no overrides. -/
def retryReq0 : JobRetryRequest :=
  { reset_retry_count := false, new_priority := none, scheduled_at := none }

/-- A cancellation request with no reason. -/
def cancelReq0 : JobCancellationRequest := { reason := none }

/-- The record produced by retrying `failedJob`. -/
def retriedResult : JobQueue :=
  (retryJob 5 retryReq0 failedJob).toOption.getD sampleJob

/-- An update request that sets only `progress_percentage`, leaving `status`
unset. -/
def updProgressOnly : JobQueueUpdate :=
  { status := none, progress_percentage := some 50, current_step := none,
    total_steps := none, output_data := none, error_message := none }

/-- C1 (counterexample): with the full registry and a failing handler, a job
with `retry_count = 0`, `max_retries = 3` ends the attempt with
`retry_count = 1 < max_retries` yet status FAILED instead of the claimed
PENDING; and a job with `max_retries = 0` ends with
`retry_count = 1 > max_retries`, violating the claimed bound. -/
theorem c1_retry_counterexample :
    (processJob failingRegistry 5 sampleJob).2.retry_count = 1 ∧
    (processJob failingRegistry 5 sampleJob).2.retry_count < sampleJob.max_retries ∧
    (processJob failingRegistry 5 sampleJob).2.status ≠ JobStatus.pending ∧
    (processJob failingRegistry 5 sampleJobNoRetries).2.retry_count >
      sampleJobNoRetries.max_retries := by
  decide

/-- C1 (amended): after a handler failure, `retry_count` increases by exactly
1, but the job's status becomes FAILED unconditionally — the job is never
requeued to PENDING and `retry_count` is not bounded by `max_retries`. -/
theorem c1_retry_amended (registry : HandlerRegistry) (now : Nat)
    (j : JobQueue) (h : JobQueue → HandlerOutcome) (e : String)
    (hreg : registry j.job_type = some h)
    (hfail : ∀ x, h x = HandlerOutcome.fail e) :
    (processJob registry now j).2.retry_count = j.retry_count + 1 ∧
    (processJob registry now j).2.status = JobStatus.failed := by
  simp [processJob, hreg, hfail, failJob, updateJobProgress,
    startJobProcessing]

/-- Witness for C1: the amended statement at the failing registry and
`sampleJob`. -/
theorem c1_retry_amended_witness :
    (processJob failingRegistry 5 sampleJob).2.retry_count =
      sampleJob.retry_count + 1 ∧
    (processJob failingRegistry 5 sampleJob).2.status = JobStatus.failed :=
  c1_retry_amended failingRegistry 5 sampleJob failingHandler "boom" rfl
    (fun _ => rfl)

/-- C6 (counterexample): a job whose type has no registered handler is routed
through `_fail_job`, which increments `retry_count` — the claimed
"retry_count is unchanged" is false. -/
theorem c6_no_handler_counterexample :
    (processJob emptyRegistry 5 sampleJob).2.retry_count ≠
      sampleJob.retry_count ∧
    (processJob emptyRegistry 5 sampleJob).2.retry_count =
      sampleJob.retry_count + 1 := by
  decide

/-- C6 (amended): a claimed job whose `job_type` has no registered handler is
routed directly to FAILED and is not requeued to PENDING, but the failure does
consume a retry: `retry_count` is incremented by 1. -/
theorem c6_no_handler_amended (registry : HandlerRegistry) (now : Nat)
    (j : JobQueue) (hreg : registry j.job_type = none) :
    (processJob registry now j).2.status = JobStatus.failed ∧
    (processJob registry now j).2.status ≠ JobStatus.pending ∧
    (processJob registry now j).2.retry_count = j.retry_count + 1 := by
  unfold processJob
  rw [hreg]
  refine ⟨rfl, ?_, rfl⟩
  intro hcontra
  exact JobStatus.noConfusion hcontra

/-- Witness for C6: the amended statement at the empty registry. -/
theorem c6_no_handler_amended_witness :
    (processJob emptyRegistry 5 sampleJob).2.status = JobStatus.failed ∧
    (processJob emptyRegistry 5 sampleJob).2.status ≠ JobStatus.pending ∧
    (processJob emptyRegistry 5 sampleJob).2.retry_count =
      sampleJob.retry_count + 1 :=
  c6_no_handler_amended emptyRegistry 5 sampleJob rfl

/-- C10 (confirmed): a successful cancel of a PENDING or PROCESSING job stores
status CANCELLED, stamps `completed_at`, and sets `error_message` through the
truthy `reason or "Job cancelled by user"`: a non-empty caller-supplied reason
is stored as given, while a missing reason — and likewise an empty-string
reason, which the code treats as falsy — yields the default text; the
cancelled record therefore always carries a non-null `error_message` and
`completed_at`. -/
theorem c10_cancel_fields (now : Nat) (req : JobCancellationRequest)
    (j : JobQueue)
    (hstat : j.status = JobStatus.pending ∨ j.status = JobStatus.processing) :
    ∃ j2, cancelJob now req j = Except.ok j2 ∧
      j2.status = JobStatus.cancelled ∧
      j2.completed_at = some now ∧
      j2.error_message =
        some (reasonOrFallback req.reason "Job cancelled by user") ∧
      (∀ r, req.reason = some r → r ≠ "" → j2.error_message = some r) ∧
      (req.reason = none ∨ req.reason = some "" →
        j2.error_message = some "Job cancelled by user") ∧
      j2.error_message ≠ none ∧
      j2.completed_at ≠ none := by
  unfold cancelJob
  rw [if_pos hstat]
  refine ⟨_, rfl, rfl, rfl, rfl, ?_, ?_, by simp, by simp⟩
  · intro r hr hne
    simp [reasonOrFallback, hr, hne]
  · intro hempty
    rcases hempty with hre | hre
    · simp [reasonOrFallback, hre]
    · simp [reasonOrFallback, hre]

/-- Witness for C10: cancelling the pending `sampleJob` with no reason
supplied. -/
theorem c10_cancel_fields_witness :
    ∃ j2, cancelJob 5 { reason := none } sampleJob = Except.ok j2 ∧
      j2.status = JobStatus.cancelled ∧
      j2.completed_at = some 5 ∧
      j2.error_message =
        some (reasonOrFallback none "Job cancelled by user") ∧
      (∀ r, (none : Option String) = some r → r ≠ "" →
        j2.error_message = some r) ∧
      ((none : Option String) = none ∨ (none : Option String) = some "" →
        j2.error_message = some "Job cancelled by user") ∧
      j2.error_message ≠ none ∧
      j2.completed_at ≠ none :=
  c10_cancel_fields 5 { reason := none } sampleJob (Or.inl rfl)

/-- C5 (counterexample): a `PUT /jobs/{id}` request whose body carries
`status` does change the job's status — here a COMPLETED job is moved to
PROCESSING by the update endpoint, refuting "the status field is left
unchanged by the operation". -/
theorem c5_update_status_counterexample :
    (updateJob 5 updSetProcessing completedJob).status ≠ completedJob.status ∧
    (updateJob 5 updSetProcessing completedJob).status =
      JobStatus.processing := by
  decide

/-- C5 (amended): the update endpoint can change only the six request fields
(`status`, `progress_percentage`, `current_step`, `total_steps`,
`output_data`, `error_message`) plus `updated_at`; everything else is
untouched, and `status` is unchanged exactly when the request leaves it
unset — contrary to the claim, a request carrying `status` does change it. -/
theorem c5_update_frame_amended (now : Nat) (u : JobQueueUpdate)
    (j : JobQueue) :
    (u.status = none → (updateJob now u j).status = j.status) ∧
    (updateJob now u j).id = j.id ∧
    (updateJob now u j).user_id = j.user_id ∧
    (updateJob now u j).job_type = j.job_type ∧
    (updateJob now u j).priority = j.priority ∧
    (updateJob now u j).input_data = j.input_data ∧
    (updateJob now u j).max_retries = j.max_retries ∧
    (updateJob now u j).scheduled_at = j.scheduled_at ∧
    (updateJob now u j).retry_count = j.retry_count ∧
    (updateJob now u j).started_at = j.started_at ∧
    (updateJob now u j).completed_at = j.completed_at ∧
    (updateJob now u j).created_at = j.created_at := by
  unfold updateJob
  split
  · exact ⟨fun hn => by simp [hn], rfl, rfl, rfl, rfl, rfl, rfl, rfl, rfl,
      rfl, rfl, rfl⟩
  · exact ⟨fun _ => rfl, rfl, rfl, rfl, rfl, rfl, rfl, rfl, rfl, rfl, rfl,
      rfl⟩

/-- Witness for C5: an update that sets only the progress leaves the status
of `sampleJob` unchanged. -/
theorem c5_update_frame_amended_witness :
    (updateJob 5 updProgressOnly sampleJob).status = sampleJob.status :=
  (c5_update_frame_amended 5 updProgressOnly sampleJob).1 rfl

/-- C8 (counterexample): a COMPLETED job transitions to PENDING through the
update endpoint, which is not a retry request — refuting "never transitions
to any other status through any operation except an explicit retry
request". -/
theorem c8_terminal_counterexample :
    completedJob.status = JobStatus.completed ∧
    (updateJob 5 updSetPending completedJob).status = JobStatus.pending ∧
    JobStatus.pending ≠ JobStatus.completed := by
  decide

/-- C8 (amended): the retry endpoint accepts exactly FAILED/CANCELLED jobs and
moves them to PENDING, and the cancel endpoint accepts exactly
PENDING/PROCESSING jobs; however a COMPLETED or CANCELLED job can still be
moved to another status by the `PUT /jobs/{id}` update endpoint when the
request carries a `status` value. -/
theorem c8_terminal_amended (now : Nat) (req : JobRetryRequest)
    (creq : JobCancellationRequest) (j : JobQueue) :
    (respOk (retryJob now req j) = true ↔
      (j.status = JobStatus.failed ∨ j.status = JobStatus.cancelled)) ∧
    (∀ j2, retryJob now req j = Except.ok j2 →
      j2.status = JobStatus.pending) ∧
    (respOk (cancelJob now creq j) = true ↔
      (j.status = JobStatus.pending ∨ j.status = JobStatus.processing)) := by
  refine ⟨?_, ?_, ?_⟩
  · by_cases hs : j.status = JobStatus.failed ∨ j.status = JobStatus.cancelled
    · simp [retryJob, hs, respOk]
    · simp [retryJob, hs, respOk]
  · intro j2 h2
    by_cases hs : j.status = JobStatus.failed ∨ j.status = JobStatus.cancelled
    · unfold retryJob at h2
      rw [if_pos hs] at h2
      cases h2
      rfl
    · unfold retryJob at h2
      rw [if_neg hs] at h2
      cases h2
  · by_cases hs : j.status = JobStatus.pending ∨ j.status = JobStatus.processing
    · simp [cancelJob, hs, respOk]
    · simp [cancelJob, hs, respOk]

/-- Witness for C8: retrying the FAILED `failedJob` yields a PENDING
record. -/
theorem c8_terminal_amended_witness :
    retriedResult.status = JobStatus.pending :=
  (c8_terminal_amended 5 retryReq0 cancelReq0 failedJob).2.1 retriedResult
    rfl

/-- C9 (confirmed): deleting an owned job is rejected with the conflict-class
error (HTTP 400, "Cannot delete job that is currently processing") and the
store is left unchanged when the job is PROCESSING; for an owned job in any
other status the delete succeeds and removes the record with that id. -/
theorem c9_delete_guard (store : List JobQueue) (job_id user : Nat)
    (j : JobQueue)
    (hfind : store.find? (fun x => x.id == job_id && x.user_id == user) =
      some j) :
    (j.status = JobStatus.processing →
      deleteJob store job_id user =
        (Except.error
          { code := 400,
            detail := "Cannot delete job that is currently processing" },
         store)) ∧
    (j.status ≠ JobStatus.processing →
      (deleteJob store job_id user).1 = Except.ok () ∧
      (deleteJob store job_id user).2 =
        store.filter (fun x => !(x.id == job_id)) ∧
      ∀ x ∈ (deleteJob store job_id user).2, x.id ≠ job_id) := by
  constructor
  · intro hp
    simp [deleteJob, hfind, hp]
  · intro hp
    refine ⟨?_, ?_, ?_⟩
    · simp [deleteJob, hfind, hp]
    · simp [deleteJob, hfind, hp]
    · intro x hx
      simp [deleteJob, hfind, hp, List.mem_filter] at hx
      exact hx.2

/-- Witness for C9: deleting the PROCESSING row 51 is rejected and leaves the
store intact; deleting the PENDING row 52 succeeds and removes it. -/
theorem c9_delete_guard_witness :
    (deleteJob deleteStore 51 7 =
      (Except.error
        { code := 400,
          detail := "Cannot delete job that is currently processing" },
       deleteStore)) ∧
    ((deleteJob deleteStore 52 7).1 = Except.ok () ∧
     (deleteJob deleteStore 52 7).2 =
       deleteStore.filter (fun x => !(x.id == 52)) ∧
     ∀ x ∈ (deleteJob deleteStore 52 7).2, x.id ≠ 52) :=
  ⟨(c9_delete_guard deleteStore 51 7 processingJob (by decide)).1 rfl,
   (c9_delete_guard deleteStore 52 7 pendingJob52 (by decide)).2 (by decide)⟩

/-- C4 (counterexample): on the scenario-E job set {2 COMPLETED, 1 FAILED,
1 PENDING}, `get_dashboard_stats` reports `success_rate = 1/2` (completed
divided by all four jobs), not the claimed `2/3` (completed divided by
completed+failed); `pending_jobs = 1` does hold. -/
theorem c4_dashboard_counterexample :
    (getDashboardStats dashJobs).success_rate ≠ 2 / 3 ∧
    (getDashboardStats dashJobs).success_rate = 1 / 2 ∧
    (getDashboardStats dashJobs).pending_jobs = 1 := by
  constructor
  · simp [getDashboardStats, dashJobs, sampleJob]
    norm_num
  · constructor
    · simp [getDashboardStats, dashJobs, sampleJob]
      norm_num
    · decide

/-- C4 (amended): the aggregator computes `success_rate` as completed jobs
divided by the total number of jobs (all statuses, not completed+failed); on
{2 COMPLETED, 1 FAILED, 1 PENDING} it reports `success_rate = 1/2` and
`pending_jobs = 1`. -/
theorem c4_dashboard_amended :
    (∀ jobs : List JobQueue, jobs ≠ [] →
      (getDashboardStats jobs).success_rate =
        ((getDashboardStats jobs).completed_jobs : ℚ) /
          ((getDashboardStats jobs).total_jobs : ℚ)) ∧
    (getDashboardStats dashJobs).success_rate = 1 / 2 ∧
    (getDashboardStats dashJobs).pending_jobs = 1 := by
  refine ⟨?_, ?_, by decide⟩
  · intro jobs hne
    have hpos : 0 < jobs.length := List.length_pos.mpr hne
    simp only [getDashboardStats]
    rw [if_pos hpos]
  · simp [getDashboardStats, dashJobs, sampleJob]
    norm_num

/-- Witness for C4: the amended success-rate formula evaluated on the
scenario-E job set. -/
theorem c4_dashboard_amended_witness :
    (getDashboardStats dashJobs).success_rate =
      ((getDashboardStats dashJobs).completed_jobs : ℚ) /
        ((getDashboardStats dashJobs).total_jobs : ℚ) :=
  c4_dashboard_amended.1 dashJobs (by decide)

/-- C7 (counterexample): in an attempt where the content-generation step
fails, the handler returns failure yet no step row is ever marked FAILED —
the failing step is left in PROCESSING, refuting "the failing step's status
becomes FAILED with its error captured". -/
theorem c7_step_failure_counterexample :
    (cvGeneration cvFailEnv 5 sampleJob initialCvSteps).1 =
      CvResult.fail "Content generation failed" ∧
    ((cvGeneration cvFailEnv 5 sampleJob initialCvSteps).2.2.all
      (fun s => !(s.status == StepStatus.failed))) = true := by
  decide

/-- C7 (amended): on every failing attempt of the CV pipeline, no step after
the failing one is executed (they remain PENDING) and every step completed
before it retains COMPLETED (or SKIPPED), but the failing step's status
remains PROCESSING rather than becoming FAILED — the error is recorded on the
job via `_fail_job`, not on the step row. -/
theorem c7_step_failure_amended (env : CvEnv)
    (hfail : (cvGeneration env 5 sampleJob initialCvSteps).1 ≠ CvResult.ok) :
    failShape (cvGeneration env 5 sampleJob initialCvSteps).2.2 := by
  revert hfail
  revert env
  decide

/-- Witness for C7: the amended step pattern at the environment where content
generation fails. -/
theorem c7_step_failure_amended_witness :
    failShape (cvGeneration cvFailEnv 5 sampleJob initialCvSteps).2.2 :=
  c7_step_failure_amended cvFailEnv (by decide)

/-- `pickBest` finds nothing exactly when no job of the store is eligible. -/
theorem pickBest_eq_none_iff (now : Nat) (s : List JobQueue) :
    pickBest now s = none ↔ s.countP (eligibleAt now) = 0 := by
  induction s with
  | nil => simp [pickBest]
  | cons j rest ih =>
    cases hr : pickBest now rest with
    | none =>
      have h0 : rest.countP (eligibleAt now) = 0 := ih.mp hr
      by_cases hj : eligibleAt now j = true
      · simp [pickBest, hr, hj, List.countP_cons, h0]
      · simp [pickBest, hr, hj, List.countP_cons, h0]
    | some ib =>
      obtain ⟨i, b⟩ := ib
      have hne : rest.countP (eligibleAt now) ≠ 0 := by
        intro h0
        rw [ih.mpr h0] at hr
        cases hr
      by_cases hj : eligibleAt now j = true
      · by_cases hp : preferred b j = true
        · simp [pickBest, hr, hj, hp, List.countP_cons]
        · simp [pickBest, hr, hj, hp, List.countP_cons]
      · simp [pickBest, hr, hj, List.countP_cons]
        exact List.countP_pos_iff.mp (Nat.pos_of_ne_zero hne)

/-- The job `pickBest` returns sits at the returned index and is eligible. -/
theorem pickBest_get (now : Nat) (s : List JobQueue) :
    ∀ i b, pickBest now s = some (i, b) →
      s[i]? = some b ∧ eligibleAt now b = true := by
  induction s with
  | nil => intro i b h; simp [pickBest] at h
  | cons j rest ih =>
    intro i b h
    cases hr : pickBest now rest with
    | none =>
      by_cases hj : eligibleAt now j = true
      · simp [pickBest, hr, hj] at h
        obtain ⟨rfl, rfl⟩ := h
        exact ⟨by simp, hj⟩
      · simp [pickBest, hr, hj] at h
    | some ib =>
      obtain ⟨i2, b2⟩ := ib
      obtain ⟨hget, helig⟩ := ih i2 b2 hr
      by_cases hj : eligibleAt now j = true
      · by_cases hp : preferred b2 j = true
        · simp [pickBest, hr, hj, hp] at h
          obtain ⟨rfl, rfl⟩ := h
          simpa using ⟨hget, helig⟩
        · simp [pickBest, hr, hj, hp] at h
          obtain ⟨rfl, rfl⟩ := h
          exact ⟨by simp, hj⟩
      · simp [pickBest, hr, hj] at h
        obtain ⟨rfl, rfl⟩ := h
        simpa using ⟨hget, helig⟩

/-- Replacing a counted element by an uncounted one lowers `countP` by one. -/
theorem countP_set_dec {α : Type} (p : α → Bool) :
    ∀ (s : List α) (i : Nat) (x y : α), s[i]? = some y →
      p y = true → p x = false →
      (s.set i x).countP p + 1 = s.countP p := by
  intro s
  induction s with
  | nil => intro i x y h; simp at h
  | cons a rest ih =>
    intro i x y h hy hx
    cases i with
    | zero =>
      simp at h
      subst h
      simp [List.countP_cons, hy, hx]
    | succ n =>
      simp at h
      have := ih n x y h hy hx
      simp [List.countP_cons]
      omega

/-- A job just claimed is no longer eligible (its status is PROCESSING). -/
theorem markProcessing_not_eligible (now now2 : Nat) (j : JobQueue) :
    eligibleAt now2 (markProcessing now j) = false := by
  simp [eligibleAt, markProcessing]

/-- With no eligible job the claim returns none and leaves the store. -/
theorem claimNext_of_none_eligible (now : Nat) (s : List JobQueue)
    (h : s.countP (eligibleAt now) = 0) :
    claimNext now s = (none, s) := by
  unfold claimNext
  rw [(pickBest_eq_none_iff now s).mpr h]

/-- With `n + 1` eligible jobs the claim succeeds, returns a PROCESSING
record, and the store is left with `n` eligible jobs. -/
theorem claimNext_of_one_more (now n : Nat) (s : List JobQueue)
    (h : s.countP (eligibleAt now) = n + 1) :
    ∃ jp s2, claimNext now s = (some jp, s2) ∧
      s2.countP (eligibleAt now) = n ∧
      jp.status = JobStatus.processing := by
  cases hpb : pickBest now s with
  | none =>
    rw [(pickBest_eq_none_iff now s).mp hpb] at h
    cases h
  | some ib =>
    obtain ⟨i, b⟩ := ib
    obtain ⟨hget, helig⟩ := pickBest_get now s i b hpb
    refine ⟨markProcessing now b, s.set i (markProcessing now b), ?_, ?_, rfl⟩
    · simp [claimNext, hpb]
    · have := countP_set_dec (eligibleAt now) s i (markProcessing now b) b
        hget helig (markProcessing_not_eligible now now b)
      omega

/-- Claims against a store with no eligible job all return none. -/
theorem runClaims_of_none_eligible (now : Nat) :
    ∀ (n : Nat) (s : List JobQueue), s.countP (eligibleAt now) = 0 →
      runClaims n now s = (List.replicate n none, s) := by
  intro n
  induction n with
  | zero => intro s h; simp [runClaims]
  | succ m ih =>
    intro s h
    simp [runClaims, claimNext_of_none_eligible now s h, ih s h,
      List.replicate_succ]

/-- C2 (confirmed, spec-modelled claim): for any serialization of N
concurrent callers of the atomic claim against a store holding exactly one
eligible PENDING job, every caller gets a response, exactly one receives a
job (so the other N−1 receive none), and any received job is held in
PROCESSING. -/
theorem c2_at_most_one_claim (N now : Nat) (s : List JobQueue)
    (hN : 0 < N) (h1 : s.countP (eligibleAt now) = 1) :
    (runClaims N now s).1.length = N ∧
    (runClaims N now s).1.countP Option.isSome = 1 ∧
    (∀ o ∈ (runClaims N now s).1, ∀ x, o = some x →
      x.status = JobStatus.processing) := by
  obtain ⟨m, rfl⟩ : ∃ m, N = m + 1 := ⟨N - 1, by omega⟩
  obtain ⟨jp, s2, hcn, h0, hst⟩ := claimNext_of_one_more now 0 s h1
  have hrest := runClaims_of_none_eligible now m s2 h0
  refine ⟨?_, ?_, ?_⟩
  · simp [runClaims, hcn, hrest]
  · simp [runClaims, hcn, hrest, List.countP_replicate]
  · intro o ho x hx
    simp [runClaims, hcn, hrest] at ho
    rcases ho with rfl | ho
    · cases hx
      exact hst
    · rw [ho.2] at hx
      cases hx

/-- Witness for C2: three callers against the store whose only eligible
PENDING job is `sampleJob`. -/
theorem c2_at_most_one_claim_witness :
    (runClaims 3 5 oneEligStore).1.length = 3 ∧
    (runClaims 3 5 oneEligStore).1.countP Option.isSome = 1 ∧
    (∀ o ∈ (runClaims 3 5 oneEligStore).1, ∀ x, o = some x →
      x.status = JobStatus.processing) :=
  c2_at_most_one_claim 3 5 oneEligStore (by decide) (by decide)

/-- No job strictly prefers itself. -/
theorem preferred_irrefl (a : JobQueue) : preferred a a = false := by
  simp [preferred]

/-- The claim preference is asymmetric. -/
theorem preferred_asymm (a b : JobQueue) (h : preferred a b = true) :
    preferred b a = false := by
  simp only [preferred, Bool.or_eq_true, Bool.and_eq_true,
    decide_eq_true_eq, beq_iff_eq] at h
  simp only [preferred, Bool.or_eq_false_iff, Bool.and_eq_false_iff,
    decide_eq_false_iff_not, beq_eq_false_iff_ne]
  omega

/-- Not-preferred is transitive (the preference is a strict lexicographic
order on priority, scheduled time, creation time). -/
theorem preferred_negtrans (k b j : JobQueue)
    (hkb : preferred k b = false) (hbj : preferred b j = false) :
    preferred k j = false := by
  simp only [preferred, Bool.or_eq_false_iff, Bool.and_eq_false_iff,
    decide_eq_false_iff_not, beq_eq_false_iff_ne] at hkb hbj ⊢
  omega

/-- `pickBest` returns a job no eligible job of the store is preferred to. -/
theorem pickBest_max (now : Nat) (s : List JobQueue) :
    ∀ i b, pickBest now s = some (i, b) →
      ∀ k ∈ s, eligibleAt now k = true → preferred k b = false := by
  induction s with
  | nil => intro i b h; simp [pickBest] at h
  | cons j rest ih =>
    intro i b h k hk helig
    cases hr : pickBest now rest with
    | none =>
      have h0 : rest.countP (eligibleAt now) = 0 :=
        (pickBest_eq_none_iff now rest).mp hr
      by_cases hj : eligibleAt now j = true
      · simp [pickBest, hr, hj] at h
        obtain ⟨rfl, rfl⟩ := h
        rcases List.mem_cons.mp hk with rfl | hk2
        · exact preferred_irrefl k
        · have := List.countP_eq_zero.mp h0 k hk2
          simp [helig] at this
      · simp [pickBest, hr, hj] at h
    | some ib =>
      obtain ⟨i2, b2⟩ := ib
      have ihmax := ih i2 b2 hr
      by_cases hj : eligibleAt now j = true
      · by_cases hp : preferred b2 j = true
        · simp [pickBest, hr, hj, hp] at h
          obtain ⟨rfl, rfl⟩ := h
          rcases List.mem_cons.mp hk with rfl | hk2
          · exact preferred_asymm b2 k hp
          · exact ihmax k hk2 helig
        · simp [pickBest, hr, hj, hp] at h
          obtain ⟨rfl, rfl⟩ := h
          rcases List.mem_cons.mp hk with rfl | hk2
          · exact preferred_irrefl k
          · have hpf : preferred b2 j = false := by
              simpa using hp
            exact preferred_negtrans k b2 j (ihmax k hk2 helig) hpf
      · simp [pickBest, hr, hj] at h
        obtain ⟨rfl, rfl⟩ := h
        rcases List.mem_cons.mp hk with rfl | hk2
        · rw [helig] at hj
          cases hj rfl
        · exact ihmax k hk2 helig

/-- C3 (confirmed, spec-modelled claim): every claimed job is an eligible
PENDING job that no other eligible job beats on (priority desc, scheduled
asc, created asc); concretely, of the two scenario-D jobs with priorities 9
and 3 and equal creation time the priority-9 job is claimed first and the
priority-3 job second. -/
theorem c3_claim_priority_order :
    (∀ (now : Nat) (s : List JobQueue) (jp : JobQueue) (s2 : List JobQueue),
      claimNext now s = (some jp, s2) →
      ∃ j0, j0 ∈ s ∧ eligibleAt now j0 = true ∧
        jp = markProcessing now j0 ∧
        ∀ k ∈ s, eligibleAt now k = true → preferred k j0 = false) ∧
    (claimNext 5 bulkStore =
      (some (markProcessing 5 bulkJob9), bulkStoreAfter) ∧
     (claimNext 5 bulkStoreAfter).1 = some (markProcessing 5 bulkJob3)) := by
  constructor
  · intro now s jp s2 h
    cases hpb : pickBest now s with
    | none => simp [claimNext, hpb] at h
    | some ib =>
      obtain ⟨i, b⟩ := ib
      obtain ⟨hget, helig⟩ := pickBest_get now s i b hpb
      have hmem : b ∈ s := by
        have hlt : i < s.length := by
          by_contra hge
          rw [List.getElem?_eq_none (by omega)] at hget
          cases hget
        rw [List.getElem?_eq_getElem hlt] at hget
        rw [← Option.some.inj hget]
        exact List.getElem_mem hlt
      simp [claimNext, hpb] at h
      exact ⟨b, hmem, helig, h.1.symm, pickBest_max now s i b hpb⟩
  · exact ⟨by decide, by decide⟩

/-- Witness for C3: the first scenario-D claim, instantiated at the concrete
two-job store. -/
theorem c3_claim_priority_order_witness :
    ∃ j0, j0 ∈ bulkStore ∧ eligibleAt 5 j0 = true ∧
      markProcessing 5 bulkJob9 = markProcessing 5 j0 ∧
      ∀ k ∈ bulkStore, eligibleAt 5 k = true → preferred k j0 = false :=
  c3_claim_priority_order.1 5 bulkStore (markProcessing 5 bulkJob9)
    bulkStoreAfter (by decide)
